import Mathlib

/-
Verification development for the documind-pdf-rag server
(src/server-python).  The Python source is shallowly embedded in Lean:
pure data manipulation becomes Lean functions, fallible code returns
`Except`, external collaborators (the Nomic embedding provider, the
Qdrant vector database engine, the langchain text splitter, the Celery
broker) are modelled through their documented interfaces as explicit
function parameters, while everything the repository itself computes
(filter construction, payload layout, validation, control flow) is
translated line by line from the source files.
-/

set_option maxRecDepth 4000

namespace Documind

/-- ProcessingStatus enum from app/models.py. -/
inductive ProcessingStatus where
  | uploading
  | processing
  | completed
  | failed
  deriving DecidableEq, Repr

/-- Values stored in a Qdrant payload / Python metadata dict.  The
pipeline only ever stores strings and natural numbers in payloads. -/
inductive PValue where
  | vStr (s : String)
  | vNat (n : Nat)
  deriving DecidableEq, Repr

/-- A Python dict is modelled as an association list where, as in a dict
literal built with later keys overriding earlier ones, the LAST binding
of a key wins (see `dlookup`). -/
abbrev Dict := List (String × PValue)

/-- Dict lookup with last-binding-wins semantics, matching Python dict
construction where a later duplicate key overrides an earlier one. -/
def dlookup {α : Type} (l : List (String × α)) (k : String) : Option α :=
  (l.reverse.find? (fun p => p.1 == k)).map (fun p => p.2)

/-- Embedding vectors; components are modelled as rationals (the float
arithmetic itself belongs to the external provider). -/
abbrev Vec := List ℚ

/-- Nomic task types, from app/services/embeddings.py: ingestion uses
"search_document", the query variant uses "search_query". -/
inductive TaskType where
  | searchDocument
  | searchQuery
  deriving DecidableEq, Repr

/-- A record of one call made to the external embedding provider. -/
structure EmbedCall where
  texts : List String
  task : TaskType
  deriving DecidableEq, Repr

/-- The external Nomic provider: given texts and a task type it returns
`some` list of vectors, or `none` for an invalid/absent response
(`not result or 'embeddings' not in result` in the source). -/
abbrev Provider := List String → TaskType → Option (List Vec)

/-- EmbeddingService.dimension, hard-coded to 768 in
EmbeddingService.__init__ (app/services/embeddings.py). -/
def embeddingDimension : Nat := 768

/-- The validation loop of EmbeddingService._generate_embeddings_sync:
walks the returned embeddings and fails at the first vector whose length
differs from the configured dimension. -/
def checkDims : Nat → List Vec → Except String Unit
  | _, [] => Except.ok ()
  | i, v :: rest =>
    if v.length = embeddingDimension then
      checkDims (i + 1) rest
    else
      Except.error ("Unexpected embedding dimension for text " ++ toString i ++
        ": " ++ toString v.length ++ " != " ++ toString embeddingDimension)

/-- EmbeddingService._generate_embeddings_sync: one provider call with
task type "search_document", response-shape check, then the dimension
validation loop; errors are wrapped with the Nomic failure prefix. -/
def generateEmbeddingsSync (provider : Provider) (texts : List String) :
    Except String (List Vec) :=
  match provider texts TaskType.searchDocument with
  | none => Except.error "Nomic embedding generation failed: Invalid response from Nomic API"
  | some embs =>
    match checkDims 0 embs with
    | Except.ok _ => Except.ok embs
    | Except.error e => Except.error ("Nomic embedding generation failed: " ++ e)

/-- EmbeddingService.get_embeddings: returns `[]` immediately on empty
input (no provider call is made), otherwise delegates to the synchronous
generator.  The second component records the provider calls made. -/
def getEmbeddings (provider : Provider) (texts : List String) :
    Except String (List Vec) × List EmbedCall :=
  if texts.isEmpty then
    (Except.ok [], [])
  else
    (generateEmbeddingsSync provider texts, [⟨texts, TaskType.searchDocument⟩])

/-- EmbeddingService._generate_query_embedding_sync: a single provider
call with task type "search_query", returning the first vector after
validating its dimension. -/
def generateQueryEmbeddingSync (provider : Provider) (query : String) :
    Except String Vec :=
  match provider [query] TaskType.searchQuery with
  | none => Except.error "Nomic query embedding generation failed: Invalid response from Nomic API"
  | some [] => Except.error "Nomic query embedding generation failed: Invalid response from Nomic API"
  | some (e :: _) =>
    if e.length = embeddingDimension then
      Except.ok e
    else
      Except.error "Nomic query embedding generation failed: Unexpected embedding dimension"

/-- EmbeddingService.get_query_embedding together with the record of the
provider call it makes (always task type "search_query"). -/
def getQueryEmbedding (provider : Provider) (query : String) :
    Except String Vec × List EmbedCall :=
  (generateQueryEmbeddingSync provider query, [⟨[query], TaskType.searchQuery⟩])

/-- A Qdrant FieldCondition with a MatchValue, as built inside
VectorStoreService.search_similar. -/
structure FieldCondition where
  key : String
  value : PValue
  deriving DecidableEq, Repr

/-- A Qdrant Filter: a conjunction of must-conditions. -/
structure QFilter where
  must : List FieldCondition
  deriving DecidableEq, Repr

/-- A point stored in the Qdrant collection: id, vector, payload. -/
structure QPoint where
  pid : String
  vector : Vec
  payload : Dict
  deriving DecidableEq, Repr

/-- Qdrant MatchValue semantics: the payload field named by the
condition key holds exactly the condition value. -/
def matchesCondition (payload : Dict) (c : FieldCondition) : Bool :=
  dlookup payload c.key == some c.value

/-- Qdrant filter semantics: all must-conditions hold; an absent filter
matches everything. -/
def matchesFilter (filt : Option QFilter) (payload : Dict) : Bool :=
  match filt with
  | none => true
  | some f => f.must.all (matchesCondition payload)

/-- The external similarity measure (cosine similarity is computed by
the Qdrant engine, outside this repository). -/
abbrev Sim := Vec → Vec → ℚ

/-- Insert one scored point into a list sorted by non-increasing score,
placing it after existing equal scores (stable, insertion order kept). -/
def insertDesc (x : QPoint × ℚ) : List (QPoint × ℚ) → List (QPoint × ℚ)
  | [] => [x]
  | y :: ys => if y.2 < x.2 then x :: y :: ys else y :: insertDesc x ys

/-- Stable sort by non-increasing score. -/
def sortDesc : List (QPoint × ℚ) → List (QPoint × ℚ)
  | [] => []
  | x :: xs => insertDesc x (sortDesc xs)

/-- The documented contract of Qdrant client.search: keep the points
matching the filter, score them against the query vector, keep those at
or above the score threshold, order by non-increasing score, and return
at most `lim` results. -/
def qdrantSearch (points : List QPoint) (sim : Sim) (qv : Vec)
    (filt : Option QFilter) (lim : Nat) (thr : ℚ) : List (QPoint × ℚ) :=
  (sortDesc (((points.filter (fun p => matchesFilter filt p.payload)).map
    (fun p => (p, sim qv p.vector))).filter (fun pr => thr ≤ pr.2))).take lim

/-- A formatted search hit, as assembled at the end of
VectorStoreService.search_similar. -/
structure Hit where
  content : String
  document_id : String
  filename : String
  chunk_index : Nat
  score : ℚ
  metadata : Dict
  deriving DecidableEq, Repr

/-- Read a string payload field (source: result.payload["content"] and
friends; the keys are always present on points written by ingestion). -/
def getStrD (d : Dict) (k : String) : String :=
  match dlookup d k with
  | some (PValue.vStr s) => s
  | _ => ""

/-- Read a numeric payload field. -/
def getNatD (d : Dict) (k : String) : Nat :=
  match dlookup d k with
  | some (PValue.vNat n) => n
  | _ => 0

/-- The payload keys excluded from a formatted hit's metadata dict. -/
def reservedKeys : List String :=
  ["content", "document_id", "filename", "chunk_index"]

/-- Result formatting in VectorStoreService.search_similar: content,
document id, filename, chunk index and score are lifted out of the
payload; everything else becomes the hit metadata. -/
def formatHit (pr : QPoint × ℚ) : Hit :=
  { content := getStrD pr.1.payload "content"
    document_id := getStrD pr.1.payload "document_id"
    filename := getStrD pr.1.payload "filename"
    chunk_index := getNatD pr.1.payload "chunk_index"
    score := pr.2
    metadata := pr.1.payload.filter (fun kv => !(reservedKeys.contains kv.1)) }

/-- VectorStoreService.search_similar: embeds the query through
get_embeddings (note: NOT through get_query_embedding), builds the
must-condition on the "document_id" payload key when a document id is
given, searches, and formats the hits.  The returned call list records
the provider calls made. -/
def searchSimilar (store : List QPoint) (provider : Provider) (sim : Sim)
    (query : String) (document_id : Option String) (lim : Nat) (thr : ℚ) :
    Except String (List Hit × List EmbedCall) :=
  match getEmbeddings provider [query] with
  | (Except.error e, _) => Except.error e
  | (Except.ok [], _) => Except.error "list index out of range"
  | (Except.ok (qv :: _), calls) =>
    let filt : Option QFilter := document_id.map
      (fun d => { must := [{ key := "document_id", value := PValue.vStr d }] })
    Except.ok ((qdrantSearch store sim qv filt lim thr).map formatHit, calls)

/-- The per-chunk payload built in VectorStoreService.process_document;
the trailing metadata entries override earlier keys as in a Python dict
literal (`dlookup` is last-binding-wins). -/
def pointMetadata (document_id filename : String) (i : Nat) (chunk : String)
    (extra : Dict) : Dict :=
  [("document_id", PValue.vStr document_id),
   ("filename", PValue.vStr filename),
   ("chunk_index", PValue.vNat i),
   ("content", PValue.vStr chunk),
   ("chunk_size", PValue.vNat chunk.length)] ++ extra

/-- VectorStoreService.process_document: split the text (the langchain
splitter is an external collaborator, passed as `splitText`), embed the
chunks through get_embeddings, and build one point per (chunk,
embedding) pair with fresh ids (`pointIds` models uuid4 generation).
Returns the points upserted and the chunk count; empty split returns 0
with no embedding call. -/
def processDocument (provider : Provider) (splitText : String → List String)
    (pointIds : Nat → String) (document_id text filename : String)
    (extra : Dict) : Except String (List QPoint × Nat) :=
  let chunks := splitText text
  if chunks.isEmpty then
    Except.ok ([], 0)
  else
    match (getEmbeddings provider chunks).1 with
    | Except.error e => Except.error e
    | Except.ok embs =>
      Except.ok ((chunks.zip embs).enum.map
        (fun ie => { pid := pointIds ie.1, vector := ie.2.2,
                     payload := pointMetadata document_id filename ie.1 ie.2.1 extra }),
        chunks.length)

/-- The metadata dict built by DocumentProcessor._extract_text_sync:
page_count, text_length, file_size and file_path, plus title / author /
subject / creator when the PDF carries document metadata. -/
def pdfMetadata (pageCount textLength fileSize : Nat) (filePath : String)
    (docMeta : Option (String × String × String × String)) : Dict :=
  [("page_count", PValue.vNat pageCount),
   ("text_length", PValue.vNat textLength),
   ("file_size", PValue.vNat fileSize),
   ("file_path", PValue.vStr filePath)] ++
  (match docMeta with
   | none => []
   | some (t, a, s, c) =>
     [("title", PValue.vStr t), ("author", PValue.vStr a),
      ("subject", PValue.vStr s), ("creator", PValue.vStr c)])

/-- The metadata the upload endpoint passes to the worker
(app/main.py: metadata={"uploaded_by": "user"}). -/
def uploadMeta : Dict := [("uploaded_by", PValue.vStr "user")]

/-- combined_metadata in workers/document_tasks.py process_document:
upload metadata, then the PDF metadata, then the processing timestamp
(the Celery task request id). -/
def combinedMetadata (meta pdfMeta : Dict) (taskId : String) : Dict :=
  meta ++ pdfMeta ++ [("processing_timestamp", PValue.vStr taskId)]

/-- SourceDocument from app/models.py: one chat citation. -/
structure SourceDocument where
  content : String
  page_number : Option Nat
  confidence_score : ℚ
  deriving DecidableEq, Repr

/-- ChatMessage from app/models.py. -/
structure ChatMessage where
  role : String
  content : String
  deriving DecidableEq, Repr

/-- A message sent to the LLM provider. -/
structure Message where
  role : String
  content : String
  deriving DecidableEq, Repr

/-- LLMService._build_context (app/services/llm.py): with no context
documents it returns the fixed no-context sentence; otherwise it builds
the header and one excerpt block per document.  Score rendering
(Python "%.2f" formatting of a float) is abstracted as `fmtScore`. -/
def buildContext (fmtScore : ℚ → String) (docs : List SourceDocument)
    (document_filename : Option String) : String :=
  if docs.isEmpty then
    "No relevant context found in the document."
  else
    String.join
      ((match document_filename with
        | some f => ["Document: " ++ f ++ "\n"]
        | none => []) ++
       ["Relevant excerpts from the document:\n"] ++
       docs.enum.map (fun id =>
         let pageInfo := match id.2.page_number with
           | some p => if p = 0 then "" else " (Page " ++ toString p ++ ")"
           | none => ""
         "\n--- Excerpt " ++ toString (id.1 + 1) ++ pageInfo ++
           " [Relevance: " ++ fmtScore id.2.confidence_score ++ "] ---\n" ++
           id.2.content ++ "\n"))

/-- The system prompt of LLMService._build_messages, transcribed with
contractions expanded (no other change). -/
def systemPrompt : String :=
  "You are DOCUMIND, an intelligent document analysis assistant. Your role is to help users understand and extract information from their documents through natural conversation.\n\nGuidelines:\n1. Answer questions based ONLY on the provided document context\n2. If information is not in the context, clearly state that you cannot find it in the document\n3. Provide specific references to page numbers when available\n4. Be concise but comprehensive in your responses\n5. Maintain a helpful and professional tone\n6. If asked about topics not covered in the document, politely redirect to document-related questions\n\nAlways base your responses on the document content provided in the context."

/-- LLMService._build_messages: system prompt, then the last 10 turns of
conversation history, then the user message wrapping context and query. -/
def buildMessages (query context : String) (history : List ChatMessage) :
    List Message :=
  [⟨"system", systemPrompt⟩] ++
  (history.drop (history.length - 10)).map (fun m => ⟨m.role, m.content⟩) ++
  [⟨"user", "Context from document:\n" ++ context ++ "\n\nUser question: " ++
    query ++ "\n\nPlease answer the question based on the provided context."⟩]

/-- One entry of the in-memory documents_db map in app/main.py. -/
structure DocInfo where
  id : String
  filename : String
  size : Nat
  uploadedAt : Nat
  status : ProcessingStatus
  filePath : String
  taskId : Option String
  pages : Option Nat
  error : Option String
  deriving DecidableEq, Repr

/-- The in-memory documents_db: document id keyed assignments, modelled
with last-binding-wins lookup like every other dict. -/
abbrev DocumentsDb := List (String × DocInfo)

/-- Dict assignment documents_db[k] = v. -/
def dinsert (db : DocumentsDb) (k : String) (v : DocInfo) : DocumentsDb :=
  db ++ [(k, v)]

/-- The error outcomes of the chat endpoint: 404 document not found,
400 document not ready (the HTTP detail string carries the current
status), and the generic 500 wrapper for internal failures. -/
inductive ChatError where
  | notFound
  | notReady (status : ProcessingStatus)
  | internal (msg : String)
  deriving DecidableEq, Repr

/-- The observable outcome of a successful chat call: the source
citations returned, and the context / message list handed to the
generation gateway (a successful outcome means generation was invoked
with exactly these messages). -/
structure ChatOutcome where
  sources : List SourceDocument
  genContext : String
  genMessages : List Message
  responseDocumentId : String
  deriving DecidableEq, Repr

/-- Citation construction in chat_with_document (app/main.py): content
and score from the hit, page number from the hit metadata key
"page_number". -/
def toSourceDocument (h : Hit) : SourceDocument :=
  { content := h.content
    page_number :=
      match dlookup h.metadata "page_number" with
      | some (PValue.vNat n) => some n
      | _ => none
    confidence_score := h.score }

/-- chat_with_document (app/main.py): 404 when the id is unknown, 400
carrying the current status when the document is not completed (checked
before any vector store access; the debug get_document_stats call has no
observable effect and is omitted), then search restricted to the target
document with limit 5 and threshold 0.5, citation mapping, and
generation with the built context and bounded history. -/
def chatWithDocument (db : DocumentsDb) (store : List QPoint)
    (provider : Provider) (sim : Sim) (fmtScore : ℚ → String)
    (document_id message : String) (history : List ChatMessage) :
    Except ChatError ChatOutcome :=
  match dlookup db document_id with
  | none => Except.error ChatError.notFound
  | some doc =>
    if doc.status ≠ ProcessingStatus.completed then
      Except.error (ChatError.notReady doc.status)
    else
      match searchSimilar store provider sim message (some document_id) 5 (Rat.divInt 1 2) with
      | Except.error e => Except.error (ChatError.internal e)
      | Except.ok (hits, _calls) =>
        let sources := hits.map toSourceDocument
        let context := buildContext fmtScore sources (some doc.filename)
        Except.ok { sources := sources
                    genContext := context
                    genMessages := buildMessages message context history
                    responseDocumentId := document_id }

/-- The dict returned by the process_document Celery task (both the
success result and the error result use this shape; absent keys are
`none`). -/
structure TaskResult where
  status : ProcessingStatus
  progress : Nat
  message : String
  pages : Option Nat
  chunks : Option Nat
  error : Option String
  deriving DecidableEq, Repr

/-- Celery AsyncResult states as read by get_document_status. -/
inductive CeleryState where
  | pending
  | progressState (meta : TaskResult)
  | retryState
  | successState (result : TaskResult)
  | failureState (info : String)

/-- The DocumentResponse model from app/models.py. -/
structure DocumentResponse where
  id : String
  filename : String
  size : Nat
  uploadedAt : Nat
  status : ProcessingStatus
  pages : Option Nat
  error : Option String
  deriving DecidableEq, Repr

/-- get_document_status (app/main.py): 404 (modelled as `none`) for an
unknown id; when the stored status is processing and a task id exists,
a SUCCESS task result overwrites status and pages (and nothing else —
in particular not the error field), a FAILURE sets status failed and
records the failure info as the error; every other task state leaves
the record unchanged.  The response mirrors the resulting record. -/
def getDocumentStatus (db : DocumentsDb) (taskStates : String → CeleryState)
    (document_id : String) : Option DocumentResponse :=
  match dlookup db document_id with
  | none => none
  | some doc =>
    let doc' :=
      if doc.status = ProcessingStatus.processing then
        match doc.taskId with
        | some tid =>
          match taskStates tid with
          | CeleryState.successState r => { doc with status := r.status, pages := r.pages }
          | CeleryState.failureState info =>
            { doc with status := ProcessingStatus.failed, error := some info }
          | _ => doc
        | none => doc
      else doc
    some { id := doc'.id, filename := doc'.filename, size := doc'.size,
           uploadedAt := doc'.uploadedAt, status := doc'.status,
           pages := doc'.pages, error := doc'.error }

/-- max_retries of the process_document Celery task
(workers/document_tasks.py, @celery_app.task(bind=True, max_retries=3)). -/
def maxRetries : Nat := 3

/-- The error result dict built in process_document when an attempt
fails: status failed, progress reset to 0, the error message recorded,
no pages or chunks keys. -/
def errorResult (e : String) : TaskResult :=
  { status := ProcessingStatus.failed
    progress := 0
    message := "Processing failed: " ++ e
    pages := none
    chunks := none
    error := some e }

/-- The success result dict of process_document. -/
def successResult (chunks pages : Nat) : TaskResult :=
  { status := ProcessingStatus.completed
    progress := 100
    message := "Document processed successfully"
    pages := some pages
    chunks := some chunks
    error := none }

/-- One ingestion attempt as observed from outside: it either succeeds
(with chunk and page counts) or raises at one of the pipeline steps
(service initialization, text extraction, or vector store processing)
with the raised error message. -/
inductive AttemptOutcome where
  | succeed (chunks pages : Nat)
  | failInit (msg : String)
  | failExtract (msg : String)
  | failProcess (msg : String)
  deriving DecidableEq, Repr

/-- The error message of a failing attempt, `none` on success. -/
def attemptFailMsg : AttemptOutcome → Option String
  | AttemptOutcome.succeed _ _ => none
  | AttemptOutcome.failInit e => some e
  | AttemptOutcome.failExtract e => some e
  | AttemptOutcome.failProcess e => some e

/-- The progress values reported through current_task.update_state
during one attempt, up to the point where the attempt fails: 10 after
starting extraction, 30 after extraction, 50 before vector processing,
90 before finalizing. -/
def attemptUpdates : AttemptOutcome → List Nat
  | AttemptOutcome.succeed _ _ => [10, 30, 50, 90]
  | AttemptOutcome.failInit _ => []
  | AttemptOutcome.failExtract _ => [10]
  | AttemptOutcome.failProcess _ => [10, 30, 50]

/-- All progress values the job reports within one attempt: the
update_state checkpoints followed by the progress of the returned
result — 100 in the success result; 0 in the error result, which is
returned only when retries are exhausted (otherwise the attempt ends by
raising Retry and no further progress is reported). -/
def emittedProgress (o : AttemptOutcome) (retriesExhausted : Bool) : List Nat :=
  match o with
  | AttemptOutcome.succeed _ _ => attemptUpdates o ++ [100]
  | _ => attemptUpdates o ++ (if retriesExhausted then [0] else [])

/-- The retry loop of the process_document task, as executed by Celery:
attempt number `retries` runs; on success the success result is
returned; on failure, if retries < max_retries the task re-raises via
self.retry and runs again with the retry count incremented, otherwise
the error result is returned.  The value is the final retry count
together with the task result Celery stores (as a SUCCESS state). -/
def runFrom (outcomes : Nat → AttemptOutcome) (retries : Nat) :
    Nat × TaskResult :=
  match outcomes retries with
  | AttemptOutcome.succeed c p => (retries, successResult c p)
  | AttemptOutcome.failInit e | AttemptOutcome.failExtract e
  | AttemptOutcome.failProcess e =>
    if _h : retries < maxRetries then
      runFrom outcomes (retries + 1)
    else
      (retries, errorResult e)
termination_by maxRetries - retries
decreasing_by all_goals omega

/-- A full run of the process_document task, starting at retry count 0. -/
def runProcessDocumentTask (outcomes : Nat → AttemptOutcome) :
    Nat × TaskResult :=
  runFrom outcomes 0

/-- upload_document (app/main.py): file saving and task enqueueing are
external effects passed in as their outcomes.  On a successful save the
document is registered with status uploading; when enqueueing succeeds
the entry is overwritten with the task id and status processing and a
processing response is returned; when either step raises, the exception
propagates (as an HTTP 400) and the db is left as it stands — in
particular an entry stuck at uploading when only the enqueue failed. -/
def uploadDocument (db : DocumentsDb) (saveRes : Except String (String × String))
    (delayRes : Except String String) (filename : String) (fileSize : Nat)
    (now : Nat) : DocumentsDb × Except String DocumentResponse :=
  match saveRes with
  | Except.error e => (db, Except.error e)
  | Except.ok (document_id, filePath) =>
    let entry : DocInfo :=
      { id := document_id, filename := filename, size := fileSize,
        uploadedAt := now, status := ProcessingStatus.uploading,
        filePath := filePath, taskId := none, pages := none, error := none }
    let db1 := dinsert db document_id entry
    match delayRes with
    | Except.error e => (db1, Except.error e)
    | Except.ok tid =>
      let db2 := dinsert db1 document_id
        { entry with taskId := some tid, status := ProcessingStatus.processing }
      (db2, Except.ok { id := document_id, filename := filename,
                        size := fileSize, uploadedAt := now,
                        status := ProcessingStatus.processing,
                        pages := none, error := none })

/-- Boolean non-decreasing predicate on progress sequences. -/
def nondecreasing : List Nat → Bool
  | [] => true
  | [_] => true
  | a :: b :: rest => a ≤ b && nondecreasing (b :: rest)

/-- Concrete 768-dimensional vector for witnesses. -/
def vecOnes : Vec := List.replicate embeddingDimension 1

/-- A concrete well-behaved provider: one 768-dimensional vector per
input text. -/
def providerEx : Provider := fun ts _ => some (ts.map (fun _ => vecOnes))

/-- A concrete misbehaving provider: vectors of dimension 1. -/
def providerBad : Provider := fun ts _ => some (ts.map (fun _ => [(1 : ℚ)]))

/-- A concrete similarity measure for witnesses. -/
def simEx : Sim := fun _ _ => 1

/-- A concrete score formatter for witnesses. -/
def fmtEx : ℚ → String := fun _ => "1.00"

/-- A concrete splitter for witnesses: the whole text as one chunk. -/
def splitEx : String → List String := fun t => [t]

/-- Concrete point id generation for witnesses. -/
def pidsEx : Nat → String := fun n => "pt" ++ toString n

/-- The pipeline metadata attached to chunks in the concrete run. -/
def extraEx : Dict :=
  combinedMetadata uploadMeta (pdfMetadata 1 5 10 "uploads/x.pdf" none) "t1"

/-- The store produced by a concrete ingestion of the text "hello" for
document d1. -/
def storeEx : List QPoint :=
  ((processDocument providerEx splitEx pidsEx "d1" "hello" "f.pdf" extraEx).toOption.getD
    ([], 0)).1

/-- The hits of a concrete filtered search over that store. -/
def searchExHits : List Hit :=
  ((searchSimilar storeEx providerEx simEx "hello" (some "d1") 5 (Rat.divInt 1 2)).toOption.getD
    ([], [])).1

/-- The embed calls of the same concrete search. -/
def searchExCalls : List EmbedCall :=
  ((searchSimilar storeEx providerEx simEx "hello" (some "d1") 5 (Rat.divInt 1 2)).toOption.getD
    ([], [])).2

/-- A documents_db with one completed document d1. -/
def dbEx : DocumentsDb :=
  [("d1", { id := "d1", filename := "f.pdf", size := 10, uploadedAt := 0,
            status := ProcessingStatus.completed, filePath := "uploads/x.pdf",
            taskId := some "t1", pages := some 1, error := none })]

/-- A document record still in processing, for the not-ready witness. -/
def docProcEx : DocInfo :=
  { id := "d2", filename := "g.pdf", size := 7, uploadedAt := 0,
    status := ProcessingStatus.processing, filePath := "uploads/y.pdf",
    taskId := some "t9", pages := none, error := none }

/-- A documents_db with one processing document d2. -/
def dbProc : DocumentsDb := [("d2", docProcEx)]

/-- The outcome of the concrete chat call over the ingested store. -/
def chatOutEx : ChatOutcome :=
  (chatWithDocument dbEx storeEx providerEx simEx fmtEx "d1" "hello" []).toOption.getD
    { sources := [], genContext := "", genMessages := [], responseDocumentId := "" }

/-- An ingestion whose every attempt raises during text extraction. -/
def outcomesAllFail : Nat → AttemptOutcome :=
  fun _ => AttemptOutcome.failExtract "PDF processing error: boom"

/-- A documents_db with one processing document d4 whose task is t2. -/
def dbC4 : DocumentsDb :=
  [("d4", { id := "d4", filename := "h.pdf", size := 9, uploadedAt := 0,
            status := ProcessingStatus.processing, filePath := "uploads/z.pdf",
            taskId := some "t2", pages := none, error := none })]

/-- Task states where t2 finished (as a Celery SUCCESS) carrying the
error result of the exhausted run. -/
def tsC4 : String → CeleryState :=
  fun tid => if tid == "t2" then
    CeleryState.successState (errorResult "PDF processing error: boom")
  else CeleryState.pending

/-- The documents_db left behind by an upload whose enqueue raised. -/
def uploadFailDb : DocumentsDb :=
  (uploadDocument [] (Except.ok ("d1", "uploads/x.pdf"))
    (Except.error "broker unreachable") "f.pdf" 3 0).1

/-- Lookup misses when no binding carries the key. -/
theorem dlookup_eq_none {α : Type} {l : List (String × α)} {k : String}
    (h : ∀ kv ∈ l, kv.1 ≠ k) : dlookup l k = none := by
  unfold dlookup
  have hf : l.reverse.find? (fun p => p.1 == k) = none := by
    rw [List.find?_eq_none]
    intro x hx
    simp only [beq_iff_eq]
    exact h x (List.mem_reverse.mp hx)
  rw [hf]
  rfl

/-- Lookup finds the binding appended last (dict assignment wins). -/
theorem dlookup_append_last {α : Type} (l : List (String × α)) (k : String) (v : α) :
    dlookup (l ++ [(k, v)]) k = some v := by
  unfold dlookup
  rw [List.reverse_append]
  simp

/-- Membership in an insertion step of the descending sort. -/
theorem mem_insertDesc {x a : QPoint × ℚ} {l : List (QPoint × ℚ)} :
    a ∈ insertDesc x l ↔ a = x ∨ a ∈ l := by
  induction l with
  | nil => simp [insertDesc]
  | cons y ys ih =>
    unfold insertDesc
    by_cases hcmp : y.2 < x.2
    · rw [if_pos hcmp]
      simp [List.mem_cons]
    · rw [if_neg hcmp]
      simp [List.mem_cons, ih]
      tauto

/-- The descending sort is a permutation membership-wise. -/
theorem mem_sortDesc {a : QPoint × ℚ} {l : List (QPoint × ℚ)} :
    a ∈ sortDesc l ↔ a ∈ l := by
  induction l with
  | nil => simp [sortDesc]
  | cons x xs ih => simp [sortDesc, mem_insertDesc, ih, List.mem_cons]

/-- Every result of the modelled Qdrant search is one of the stored
points and satisfies the search filter. -/
theorem qdrantSearch_mem {points : List QPoint} {sim : Sim} {qv : Vec}
    {filt : Option QFilter} {lim : Nat} {thr : ℚ} {pr : QPoint × ℚ}
    (h : pr ∈ qdrantSearch points sim qv filt lim thr) :
    pr.1 ∈ points ∧ matchesFilter filt pr.1.payload = true := by
  unfold qdrantSearch at h
  have h1 := List.take_subset _ _ h
  rw [mem_sortDesc] at h1
  obtain ⟨h2, _⟩ := List.mem_filter.mp h1
  obtain ⟨p, hp, hpr⟩ := List.mem_map.mp h2
  obtain ⟨hpp, hpf⟩ := List.mem_filter.mp hp
  cases hpr
  exact ⟨hpp, hpf⟩

/-- When the dimension-validation loop passes, every vector has the
configured dimension. -/
theorem checkDims_ok_all {embs : List Vec} : ∀ {i : Nat},
    checkDims i embs = Except.ok () →
    embs.all (fun v => v.length == embeddingDimension) = true := by
  induction embs with
  | nil => intro i _; rfl
  | cons v rest ih =>
    intro i h
    unfold checkDims at h
    by_cases hv : v.length = embeddingDimension
    · rw [if_pos hv] at h
      simp [List.all_cons, hv, ih h]
    · rw [if_neg hv] at h
      simp at h

/-- When some vector has the wrong dimension, the validation loop
reports an error. -/
theorem checkDims_error_of_bad {embs : List Vec}
    (h : embs.all (fun v => v.length == embeddingDimension) = false) :
    ∀ i, ∃ msg, checkDims i embs = Except.error msg := by
  induction embs with
  | nil => simp at h
  | cons v rest ih =>
    intro i
    unfold checkDims
    by_cases hv : v.length = embeddingDimension
    · rw [if_pos hv]
      apply ih _ (i + 1)
      simpa [List.all_cons, hv] using h
    · rw [if_neg hv]
      exact ⟨_, rfl⟩

/-- C1: for every search performed with a documentId filter set, every
hit in the returned result list has that document id — the result set is
restricted to the target document's chunks, with no cross-document
leakage. -/
theorem search_with_document_filter_restricts_hits
    (store : List QPoint) (provider : Provider) (sim : Sim) (q docId : String)
    (lim : Nat) (thr : ℚ) (hits : List Hit) (calls : List EmbedCall)
    (h : searchSimilar store provider sim q (some docId) lim thr =
      Except.ok (hits, calls)) :
    hits.all (fun hit => hit.document_id == docId) = true := by
  unfold searchSimilar at h
  rcases hg : getEmbeddings provider [q] with ⟨res, cs⟩
  rw [hg] at h
  cases res with
  | error e => simp at h
  | ok vs =>
    cases vs with
    | nil => simp at h
    | cons qv rest =>
      simp only [Except.ok.injEq, Prod.mk.injEq] at h
      obtain ⟨hh, _⟩ := h
      subst hh
      rw [List.all_eq_true]
      intro hit hmem
      obtain ⟨pr, hpr, rfl⟩ := List.mem_map.mp hmem
      obtain ⟨_, hfilt⟩ := qdrantSearch_mem hpr
      simp [matchesFilter, matchesCondition, List.all] at hfilt
      simp [formatHit, getStrD, hfilt]

/-- Witness for C1: a concrete filtered search over a concretely
ingested store returns a non-empty hit list, all of it from d1. -/
theorem search_with_document_filter_restricts_hits_witness :
    (searchSimilar storeEx providerEx simEx "hello" (some "d1") 5 (Rat.divInt 1 2) =
      Except.ok (searchExHits, searchExCalls)) ∧
    searchExHits.length = 1 ∧
    searchExHits.all (fun hit => hit.document_id == "d1") = true :=
  ⟨rfl, rfl,
    search_with_document_filter_restricts_hits storeEx providerEx simEx
      "hello" "d1" 5 (Rat.divInt 1 2) searchExHits searchExCalls rfl⟩

/-- C2: a chat request against a document that exists but is not
completed fails with the not-ready error carrying the current state,
whatever the vector store holds — the rejection happens before any
retrieval work. -/
theorem chat_rejects_document_not_completed
    (db : DocumentsDb) (store : List QPoint) (provider : Provider) (sim : Sim)
    (fmtScore : ℚ → String) (document_id message : String)
    (history : List ChatMessage) (doc : DocInfo)
    (hdoc : dlookup db document_id = some doc)
    (hst : doc.status ≠ ProcessingStatus.completed) :
    chatWithDocument db store provider sim fmtScore document_id message history =
      Except.error (ChatError.notReady doc.status) := by
  unfold chatWithDocument
  rw [hdoc]
  simp [hst]

/-- Witness for C2: chatting with the processing document d2 fails with
the not-ready error carrying the processing state, on a concrete store. -/
theorem chat_rejects_document_not_completed_witness :
    (dlookup dbProc "d2" = some docProcEx ∧
      docProcEx.status ≠ ProcessingStatus.completed) ∧
    chatWithDocument dbProc storeEx providerEx simEx fmtEx "d2" "hi" [] =
      Except.error (ChatError.notReady ProcessingStatus.processing) :=
  ⟨⟨rfl, by decide⟩,
    chat_rejects_document_not_completed dbProc storeEx providerEx simEx fmtEx
      "d2" "hi" [] docProcEx rfl (by decide)⟩

/-- C3 (code bug): the search path embeds the query text through
get_embeddings, whose single provider call carries the DOCUMENT task
type — the dedicated query variant (which tags search_query) is never
invoked by search_similar, so the document task type is applied to query
text on every query. -/
theorem search_path_applies_document_task_type_to_query :
    ((searchSimilar storeEx providerEx simEx "test" (some "d1") 5
        (Rat.divInt 1 2)).toOption.map (fun r => r.2)) =
      some [⟨["test"], TaskType.searchDocument⟩] ∧
    (getQueryEmbedding providerEx "test").2 =
      [⟨["test"], TaskType.searchQuery⟩] ∧
    TaskType.searchDocument ≠ TaskType.searchQuery :=
  ⟨rfl, rfl, by decide⟩

/-- C6: every vector returned by the embedding provider is validated to
have exactly the configured dimension (768); a batch containing any
vector of a different dimension fails as a whole with an error. -/
theorem embedding_dimension_validated
    (provider : Provider) (texts : List String) :
    (∀ vs, generateEmbeddingsSync provider texts = Except.ok vs →
      vs.all (fun v => v.length == embeddingDimension) = true) ∧
    (∀ es, provider texts TaskType.searchDocument = some es →
      es.all (fun v => v.length == embeddingDimension) = false →
      (generateEmbeddingsSync provider texts).isOk = false) := by
  constructor
  · intro vs h
    unfold generateEmbeddingsSync at h
    split at h
    · simp at h
    · split at h
      · next embs _ u hc =>
          simp only [Except.ok.injEq] at h
          subst h
          exact checkDims_ok_all hc
      · simp at h
  · intro es hp hbad
    unfold generateEmbeddingsSync
    rw [hp]
    obtain ⟨msg, hmsg⟩ := checkDims_error_of_bad hbad 0
    simp only [hmsg]
    rfl

/-- Witness for C6: a good batch passes with every vector of dimension
768; a batch with a 1-dimensional vector fails as a whole. -/
theorem embedding_dimension_validated_witness :
    (generateEmbeddingsSync providerEx ["a"] = Except.ok [vecOnes]) ∧
    ([vecOnes].all (fun v => v.length == embeddingDimension) = true) ∧
    (providerBad ["a"] TaskType.searchDocument = some [[(1 : ℚ)]]) ∧
    (([[(1 : ℚ)]] : List Vec).all (fun v => v.length == embeddingDimension) = false) ∧
    ((generateEmbeddingsSync providerBad ["a"]).isOk = false) :=
  ⟨rfl,
    (embedding_dimension_validated providerEx ["a"]).1 [vecOnes] rfl,
    rfl,
    by decide,
    (embedding_dimension_validated providerBad ["a"]).2 [[(1 : ℚ)]] rfl (by decide)⟩

/-- C7: when retrieval returns zero hits above the threshold, the chat
endpoint still succeeds — generation is invoked — and the context handed
to the model is exactly the fixed sentence stating that no relevant
context was found. -/
theorem chat_zero_hits_still_calls_generation
    (db : DocumentsDb) (store : List QPoint) (provider : Provider) (sim : Sim)
    (fmtScore : ℚ → String) (document_id message : String)
    (history : List ChatMessage) (doc : DocInfo) (calls : List EmbedCall)
    (hdoc : dlookup db document_id = some doc)
    (hst : doc.status = ProcessingStatus.completed)
    (hsearch : searchSimilar store provider sim message (some document_id) 5
      (Rat.divInt 1 2) = Except.ok ([], calls)) :
    chatWithDocument db store provider sim fmtScore document_id message history =
      Except.ok { sources := []
                  genContext := "No relevant context found in the document."
                  genMessages := buildMessages message
                    "No relevant context found in the document." history
                  responseDocumentId := document_id } := by
  unfold chatWithDocument
  rw [hdoc]
  simp [hst, hsearch, buildContext]

/-- Witness for C7: chatting with completed document d1 over an empty
index succeeds with no sources and the no-context sentence. -/
theorem chat_zero_hits_still_calls_generation_witness :
    (searchSimilar ([] : List QPoint) providerEx simEx "hi" (some "d1") 5
      (Rat.divInt 1 2) = Except.ok ([], [⟨["hi"], TaskType.searchDocument⟩])) ∧
    chatWithDocument dbEx [] providerEx simEx fmtEx "d1" "hi" [] =
      Except.ok { sources := []
                  genContext := "No relevant context found in the document."
                  genMessages := buildMessages "hi"
                    "No relevant context found in the document." []
                  responseDocumentId := "d1" } :=
  ⟨rfl,
    chat_zero_hits_still_calls_generation dbEx [] providerEx simEx fmtEx
      "d1" "hi" [] _ [⟨["hi"], TaskType.searchDocument⟩] rfl rfl rfl⟩

/-- C9: the embedding gateway returns the provider's vectors verbatim
and in order (one-to-one with the input when the provider honours its
one-vector-per-text interface), and an empty input yields an empty
output with no provider call made. -/
theorem embed_preserves_order_and_empty_input
    (provider : Provider) (texts : List String) (vs es : List Vec) :
    getEmbeddings provider [] = (Except.ok [], []) ∧
    (texts ≠ [] →
      (getEmbeddings provider texts).1 = Except.ok vs →
      provider texts TaskType.searchDocument = some es →
      vs = es ∧
      (getEmbeddings provider texts).2 = [⟨texts, TaskType.searchDocument⟩] ∧
      (es.length = texts.length → vs.length = texts.length)) := by
  refine ⟨rfl, fun hne h1 hp => ?_⟩
  have hemp : texts.isEmpty = false := by
    cases texts with
    | nil => exact absurd rfl hne
    | cons a l => rfl
  unfold getEmbeddings at h1 ⊢
  rw [hemp] at h1 ⊢
  simp only [Bool.false_eq_true, if_false] at h1 ⊢
  have hvs : vs = es := by
    unfold generateEmbeddingsSync at h1
    split at h1
    · simp at h1
    · next embs heq =>
        rw [hp] at heq
        injection heq with heq
        subst heq
        split at h1
        · simp only [Except.ok.injEq] at h1
          exact h1.symm
        · simp at h1
  subst hvs
  exact ⟨rfl, trivial, fun hl => hl⟩

/-- Witness for C9: the concrete provider applied to two texts returns
its two vectors unchanged, and the empty input makes no call. -/
theorem embed_preserves_order_and_empty_input_witness :
    (getEmbeddings providerEx [] = (Except.ok [], [])) ∧
    ((["a", "b"] : List String) ≠ []) ∧
    ((getEmbeddings providerEx ["a", "b"]).1 = Except.ok [vecOnes, vecOnes]) ∧
    (providerEx ["a", "b"] TaskType.searchDocument = some [vecOnes, vecOnes]) ∧
    ([vecOnes, vecOnes] = [vecOnes, vecOnes] ∧
      (getEmbeddings providerEx ["a", "b"]).2 =
        [⟨["a", "b"], TaskType.searchDocument⟩] ∧
      (([vecOnes, vecOnes] : List Vec).length = (["a", "b"] : List String).length →
        ([vecOnes, vecOnes] : List Vec).length = (["a", "b"] : List String).length)) :=
  ⟨rfl, by decide, rfl, rfl,
    (embed_preserves_order_and_empty_input providerEx ["a", "b"]
      [vecOnes, vecOnes] [vecOnes, vecOnes]).2 (by decide) rfl rfl⟩

/-- The final retry count of a task run never exceeds the larger of the
starting count and the retry cap. -/
theorem runFrom_fst_le_aux : ∀ (fuel : Nat) (outcomes : Nat → AttemptOutcome)
    (r : Nat), maxRetries - r ≤ fuel → (runFrom outcomes r).1 ≤ max r maxRetries := by
  intro fuel
  induction fuel with
  | zero =>
    intro outcomes r hf
    rw [runFrom]
    cases h : outcomes r with
    | succeed c p => simp
    | failInit e | failExtract e | failProcess e =>
      have hrm : ¬ r < maxRetries := by omega
      simp [hrm]
  | succ n ih =>
    intro outcomes r hf
    rw [runFrom]
    cases h : outcomes r with
    | succeed c p => simp
    | failInit e | failExtract e | failProcess e =>
      by_cases hrm : r < maxRetries
      · simp only [hrm, dif_pos]
        have := ih outcomes (r + 1) (by omega)
        omega
      · simp [hrm]

/-- A task run finishes with a result whose status is completed or
failed, never uploading or processing. -/
theorem runFrom_status_aux : ∀ (fuel : Nat) (outcomes : Nat → AttemptOutcome)
    (r : Nat), maxRetries - r ≤ fuel →
    (runFrom outcomes r).2.status = ProcessingStatus.completed ∨
    (runFrom outcomes r).2.status = ProcessingStatus.failed := by
  intro fuel
  induction fuel with
  | zero =>
    intro outcomes r hf
    rw [runFrom]
    cases h : outcomes r with
    | succeed c p => left; rfl
    | failInit e | failExtract e | failProcess e =>
      have hrm : ¬ r < maxRetries := by omega
      simp only [hrm, dif_neg]
      right; rfl
  | succ n ih =>
    intro outcomes r hf
    rw [runFrom]
    cases h : outcomes r with
    | succeed c p => left; rfl
    | failInit e | failExtract e | failProcess e =>
      by_cases hrm : r < maxRetries
      · simp only [hrm, dif_pos]
        exact ih outcomes (r + 1) (by omega)
      · simp only [hrm, dif_neg]
        right; rfl

/-- C4 (code bug): the retry count of a process_document run never
exceeds max_retries (3), and a run whose every attempt fails ends after
exactly 3 retries with the error result recording a non-empty error —
but the status endpoint, reading that result through the Celery SUCCESS
branch, copies only status and pages, so the observable document is
failed with a null error field. -/
theorem retry_cap_holds_but_error_not_observable :
    (∀ outcomes : Nat → AttemptOutcome,
      (runProcessDocumentTask outcomes).1 ≤ maxRetries) ∧
    runProcessDocumentTask outcomesAllFail =
      (3, errorResult "PDF processing error: boom") ∧
    (errorResult "PDF processing error: boom").error =
      some "PDF processing error: boom" ∧
    ((getDocumentStatus dbC4 tsC4 "d4").map (fun r => (r.status, r.error)) =
      some (ProcessingStatus.failed, (none : Option String))) := by
  refine ⟨fun outcomes => ?_, ?_, rfl, rfl⟩
  · have := runFrom_fst_le_aux maxRetries outcomes 0 (by omega)
    simpa [runProcessDocumentTask] using this
  · unfold runProcessDocumentTask
    rw [runFrom, runFrom, runFrom, runFrom]
    simp [outcomesAllFail, maxRetries]

/-- C8 counterexample: an ingestion attempt that fails during extraction
with retries exhausted reports the progress sequence 10 then 0 — the
error result resets the reported progress below the earlier checkpoint,
so progress is not monotonically non-decreasing across every update the
job emits. -/
theorem failed_attempt_resets_progress :
    emittedProgress (AttemptOutcome.failExtract "PDF processing error: boom") true =
      [10, 0] ∧
    nondecreasing (emittedProgress
      (AttemptOutcome.failExtract "PDF processing error: boom") true) = false :=
  ⟨rfl, rfl⟩

/-- C8 amended: within one attempt the update_state checkpoints are
monotonically non-decreasing, and so is the full reported sequence of
any attempt that does not return the error result (successful attempts
end at 100; failing attempts with retries remaining emit only their
checkpoints); only the error result of a failing final attempt reports
a progress (0) below earlier checkpoints. -/
theorem progress_nondecreasing_within_attempt (o : AttemptOutcome) :
    nondecreasing (attemptUpdates o) = true ∧
    nondecreasing (emittedProgress o false) = true ∧
    (attemptFailMsg o = none → nondecreasing (emittedProgress o true) = true) := by
  cases o with
  | succeed c p => exact ⟨rfl, rfl, fun _ => rfl⟩
  | failInit e => exact ⟨rfl, rfl, fun h => nomatch h⟩
  | failExtract e => exact ⟨rfl, rfl, fun h => nomatch h⟩
  | failProcess e => exact ⟨rfl, rfl, fun h => nomatch h⟩

/-- Witness for the amended C8: a successful attempt's full reported
progress sequence is non-decreasing. -/
theorem progress_nondecreasing_within_attempt_witness :
    attemptFailMsg (AttemptOutcome.succeed 3 1) = none ∧
    nondecreasing (emittedProgress (AttemptOutcome.succeed 3 1) true) = true :=
  ⟨rfl, (progress_nondecreasing_within_attempt (AttemptOutcome.succeed 3 1)).2.2 rfl⟩

/-- C10 counterexample: when saving succeeds but enqueueing the
background task raises, the upload handler leaves the document record at
uploading, and a subsequent status call observes the uploading state. -/
theorem enqueue_failure_leaves_uploading_observable :
    ((getDocumentStatus uploadFailDb (fun _ => CeleryState.pending) "d1").map
      (fun r => r.status)) = some ProcessingStatus.uploading := rfl

/-- C10 amended: on the success path — saving and enqueueing both
succeed — the upload endpoint overwrites the uploading record with
processing before returning a processing response, and a later status
read that folds in any real task outcome observes only processing,
completed or failed; only a failed enqueue leaves uploading observable. -/
theorem upload_success_path_never_shows_uploading
    (db : DocumentsDb) (filename : String) (fileSize now : Nat)
    (did path tid : String) (outcomes : Nat → AttemptOutcome) :
    ((dlookup (uploadDocument db (Except.ok (did, path)) (Except.ok tid)
        filename fileSize now).1 did).map (fun d => d.status)) =
      some ProcessingStatus.processing ∧
    (uploadDocument db (Except.ok (did, path)) (Except.ok tid)
        filename fileSize now).2 =
      Except.ok { id := did, filename := filename, size := fileSize,
                  uploadedAt := now, status := ProcessingStatus.processing,
                  pages := none, error := none } ∧
    (((getDocumentStatus
        (uploadDocument db (Except.ok (did, path)) (Except.ok tid)
          filename fileSize now).1
        (fun _ => CeleryState.successState (runProcessDocumentTask outcomes).2)
        did).map (fun r => r.status)) ≠ some ProcessingStatus.uploading) := by
  refine ⟨?_, rfl, ?_⟩
  · simp only [uploadDocument, dinsert]
    rw [dlookup_append_last]
    rfl
  · simp only [uploadDocument, dinsert, getDocumentStatus]
    rw [dlookup_append_last]
    simp only [Option.map_some]
    rcases runFrom_status_aux maxRetries outcomes 0 (by omega) with h | h <;>
      simp [runProcessDocumentTask, h]

/-- No key of a chunk payload built by the real ingestion pipeline (the
upload metadata, the PDF metadata, and the processing timestamp) is
"page_number". -/
theorem pointMetadata_pipeline_no_page_number (did fn : String) (i : Nat)
    (chunk : String) (pc tl fs : Nat) (fp tid : String)
    (dm : Option (String × String × String × String)) :
    ∀ kv ∈ pointMetadata did fn i chunk
      (combinedMetadata uploadMeta (pdfMetadata pc tl fs fp dm) tid),
      kv.1 ≠ "page_number" := by
  intro kv hkv
  rcases dm with _ | ⟨t, a, s, c⟩
  · simp only [pointMetadata, combinedMetadata, uploadMeta, pdfMetadata,
      List.cons_append, List.nil_append, List.append_nil, List.mem_cons,
      List.not_mem_nil, or_false] at hkv
    rcases hkv with rfl | rfl | rfl | rfl | rfl | rfl | rfl | rfl | rfl | rfl | rfl <;>
      simp
  · simp only [pointMetadata, combinedMetadata, uploadMeta, pdfMetadata,
      List.cons_append, List.nil_append, List.append_nil, List.mem_cons,
      List.not_mem_nil, or_false] at hkv
    rcases hkv with rfl | rfl | rfl | rfl | rfl | rfl | rfl | rfl | rfl | rfl | rfl | rfl | rfl | rfl | rfl <;>
      simp

/-- Every hit a successful search returns is the formatting of a scored
point drawn from the store. -/
theorem searchSimilar_hit_mem {store : List QPoint} {provider : Provider}
    {sim : Sim} {q : String} {docId : Option String} {lim : Nat} {thr : ℚ}
    {hits : List Hit} {calls : List EmbedCall}
    (h : searchSimilar store provider sim q docId lim thr = Except.ok (hits, calls)) :
    ∀ hit ∈ hits, ∃ pr : QPoint × ℚ, pr.1 ∈ store ∧ hit = formatHit pr := by
  unfold searchSimilar at h
  rcases hg : getEmbeddings provider [q] with ⟨res, cs⟩
  rw [hg] at h
  cases res with
  | error e => simp at h
  | ok vs =>
    cases vs with
    | nil => simp at h
    | cons qv rest =>
      simp only [Except.ok.injEq, Prod.mk.injEq] at h
      obtain ⟨hh, _⟩ := h
      subst hh
      intro hit hmem
      obtain ⟨pr, hpr, rfl⟩ := List.mem_map.mp hmem
      exact ⟨pr, (qdrantSearch_mem hpr).1, rfl⟩

/-- Every point written by process_document carries the pointMetadata
payload for its chunk. -/
theorem processDocument_payload_shape {provider : Provider}
    {splitText : String → List String} {pointIds : Nat → String}
    {did text fn : String} {extra : Dict} {points : List QPoint} {n : Nat}
    (h : processDocument provider splitText pointIds did text fn extra =
      Except.ok (points, n)) :
    ∀ p ∈ points, ∃ i chunk, p.payload = pointMetadata did fn i chunk extra := by
  simp only [processDocument] at h
  split at h
  · simp only [Except.ok.injEq, Prod.mk.injEq] at h
    obtain ⟨hp, _⟩ := h
    subst hp
    intro p hp
    simp at hp
  · split at h
    · simp at h
    · simp only [Except.ok.injEq, Prod.mk.injEq] at h
      obtain ⟨hp, _⟩ := h
      subst hp
      intro p hp
      obtain ⟨ie, _, rfl⟩ := List.mem_map.mp hp
      exact ⟨ie.1, ie.2.1, rfl⟩

/-- C5 counterexample: a concrete completed document whose single chunk
was really ingested by the pipeline yields a chat citation carrying the
chunk content but a null page number — the citation does not carry the
chunk's page number, because ingestion never writes a page_number key. -/
theorem citation_page_number_always_null :
    ((chatWithDocument dbEx storeEx providerEx simEx fmtEx "d1" "hello" []).toOption.map
      (fun o => o.sources.map (fun s => (s.content, s.page_number)))) =
      some [("hello", (none : Option Nat))] := rfl

/-- C5 amended: every chat source citation is built from a retrieved hit
and carries the chunk content and the relevance score; the page-number
field is read from the hit metadata key page_number, which the ingestion
pipeline never writes, so it is always null. -/
theorem chat_citations_content_score_null_page
    (provider provider2 : Provider) (splitText : String → List String)
    (pointIds : Nat → String) (did text filename : String)
    (pc tl fs : Nat) (fp tid : String)
    (dm : Option (String × String × String × String))
    (points : List QPoint) (n : Nat) (db : DocumentsDb) (sim : Sim)
    (fmtScore : ℚ → String) (message : String) (history : List ChatMessage)
    (hits : List Hit) (calls : List EmbedCall) (out : ChatOutcome)
    (hingest : processDocument provider splitText pointIds did text filename
      (combinedMetadata uploadMeta (pdfMetadata pc tl fs fp dm) tid) =
      Except.ok (points, n))
    (hsearch : searchSimilar points provider2 sim message (some did) 5
      (Rat.divInt 1 2) = Except.ok (hits, calls))
    (hchat : chatWithDocument db points provider2 sim fmtScore did message history =
      Except.ok out) :
    out.sources = hits.map (fun h =>
      { content := h.content, page_number := none, confidence_score := h.score }) := by
  unfold chatWithDocument at hchat
  split at hchat
  · simp at hchat
  · split at hchat
    · simp at hchat
    · split at hchat
      · rename_i e heq
        rw [hsearch] at heq
        simp at heq
      · rename_i hits2 calls2 heq
        rw [hsearch] at heq
        simp only [Except.ok.injEq, Prod.mk.injEq] at heq
        obtain ⟨hh, _⟩ := heq
        subst hh
        simp only [Except.ok.injEq] at hchat
        subst hchat
        show hits.map toSourceDocument = _
        apply List.map_congr_left
        intro h hmem
        obtain ⟨pr, hprs, rfl⟩ := searchSimilar_hit_mem hsearch h hmem
        obtain ⟨i, chunk, hpay⟩ := processDocument_payload_shape hingest pr.1 hprs
        have hnone : dlookup (formatHit pr).metadata "page_number" = none := by
          apply dlookup_eq_none
          intro kv hkv
          have hkv2 : kv ∈ pr.1.payload := (List.mem_filter.mp hkv).1
          rw [hpay] at hkv2
          exact pointMetadata_pipeline_no_page_number did filename i chunk
            pc tl fs fp tid dm kv hkv2
        unfold toSourceDocument
        rw [hnone]

/-- Witness for the amended C5: a full concrete run — ingestion, search,
chat — whose citation list carries content and score with a null page
number. -/
theorem chat_citations_content_score_null_page_witness :
    (processDocument providerEx splitEx pidsEx "d1" "hello" "f.pdf" extraEx =
      Except.ok (storeEx, 1)) ∧
    (searchSimilar storeEx providerEx simEx "hello" (some "d1") 5
      (Rat.divInt 1 2) = Except.ok (searchExHits, searchExCalls)) ∧
    (chatWithDocument dbEx storeEx providerEx simEx fmtEx "d1" "hello" [] =
      Except.ok chatOutEx) ∧
    chatOutEx.sources = searchExHits.map (fun h =>
      { content := h.content, page_number := none, confidence_score := h.score }) :=
  ⟨rfl, rfl, rfl,
    chat_citations_content_score_null_page providerEx providerEx splitEx pidsEx
      "d1" "hello" "f.pdf" 1 5 10 "uploads/x.pdf" "t1" none storeEx 1 dbEx
      simEx fmtEx "hello" [] searchExHits searchExCalls chatOutEx rfl rfl rfl⟩

end Documind
